import Mathlib

/-!
Verification of the clock-synchronization and telemetry-dispatch core in
`Core/Src/telemetry.c` (gateway-board26).

The C code is shallowly embedded: 32/64-bit unsigned machine integers become
`Nat` with explicit `% 2 ^ 64` where the C arithmetic wraps, signed 64-bit
values become `Int` with the two's-complement wrap `wrap64`, C truncating
division is `Int.tdiv`, and the process-wide mutable globals
(`g_master_offset_ms`, `g_last_delay_ms`, `g_unix_base_ms`, `g_unix_valid`,
`g_router`, `g_can_rx_subscribed`, `g_can_side_id`, `g_timesync_seq`) become
explicit state records threaded through each operation.  External
collaborators (ThreadX tick source, CAN driver, seds router) are opaque: their
return values and the hardware tick readings enter as parameters.

All embeddings model the `TELEMETRY_ENABLED` build; the compile-time role flag
`TELEMETRY_TIME_MASTER` becomes a `Bool` parameter `master`.
-/

/- ================= two's-complement 64-bit helpers ================= -/

/-- Reduce an unbounded integer to the signed 64-bit value with the same
residue mod `2 ^ 64` (two's-complement wrap, the behavior of int64 arithmetic
on the ARM target). -/
def wrap64 (z : Int) : Int := (z + 2 ^ 63) % 2 ^ 64 - 2 ^ 63

/-- The C cast `(int64_t)u` of a `uint64_t` value (embedded as `Nat`). -/
def toInt64 (n : Nat) : Int := wrap64 n

/-- The C subtraction `a - b` on `uint64_t` operands (wraps mod `2 ^ 64`). -/
def usub64 (a b : Nat) : Nat := (((a : Int) - b) % 2 ^ 64).toNat

theorem wrap64_lower (z : Int) : -2 ^ 63 ≤ wrap64 z := by
  unfold wrap64; omega

theorem wrap64_upper (z : Int) : wrap64 z < 2 ^ 63 := by
  unfold wrap64; omega

theorem wrap64_eq_self {z : Int} (h1 : -2 ^ 63 ≤ z) (h2 : z < 2 ^ 63) :
    wrap64 z = z := by
  unfold wrap64; omega

theorem wrap64_add_left (a b : Int) : wrap64 (wrap64 a + b) = wrap64 (a + b) := by
  unfold wrap64; omega

theorem wrap64_add_wrap (a b : Int) :
    wrap64 (wrap64 a + wrap64 b) = wrap64 (a + b) := by
  unfold wrap64; omega

theorem wrap64_sub_wrap (a b : Int) :
    wrap64 (wrap64 a - wrap64 b) = wrap64 (a - b) := by
  unfold wrap64; omega

theorem toInt64_usub64 (a b : Nat) : toInt64 (usub64 a b) = wrap64 ((a : Int) - b) := by
  unfold toInt64 usub64
  have h0 : (0 : Int) ≤ ((a : Int) - b) % 2 ^ 64 :=
    Int.emod_nonneg _ (by norm_num)
  rw [Int.toNat_of_nonneg h0]
  unfold wrap64
  omega

/- ================= NTP math: compute_offset_delay ================= -/

/-- Embedding of `compute_offset_delay` (telemetry.c:119-125).  The C code
forms `(int64_t)(t2 - t1)` etc. from `uint64_t` subtractions, adds/subtracts
them in int64, divides by 2 with C truncating division, and clamps a negative
delay to 0 before storing it in a `uint64_t`. -/
def compute_offset_delay (t1 t2 t3 t4 : Nat) : Int × Nat :=
  let o := Int.tdiv (wrap64 (toInt64 (usub64 t2 t1) + toInt64 (usub64 t3 t4))) 2
  let d := wrap64 (toInt64 (usub64 t4 t1) - toInt64 (usub64 t3 t2))
  (o, if d < 0 then 0 else d.toNat)

/-- C2: for all four unsigned 64-bit timestamps, the returned offset is
`((t2 − t1) + (t3 − t4)) / 2` computed in signed 64-bit (two's-complement)
arithmetic with truncation toward zero, and the returned delay is
`(t4 − t1) − (t3 − t2)` in signed 64-bit arithmetic clamped below at 0, hence
never negative. -/
theorem compute_offset_delay_correct (t1 t2 t3 t4 : Nat) :
    (compute_offset_delay t1 t2 t3 t4).1
      = Int.tdiv (wrap64 (((t2 : Int) - t1) + ((t3 : Int) - t4))) 2 ∧
    ((compute_offset_delay t1 t2 t3 t4).2 : Int)
      = max (wrap64 (((t4 : Int) - t1) - ((t3 : Int) - t2))) 0 ∧
    0 ≤ ((compute_offset_delay t1 t2 t3 t4).2 : Int) := by
  unfold compute_offset_delay
  rw [toInt64_usub64, toInt64_usub64, toInt64_usub64, toInt64_usub64,
    wrap64_add_wrap, wrap64_sub_wrap]
  refine ⟨rfl, ?_, by positivity⟩
  set d := wrap64 (((t4 : Int) - t1) - ((t3 : Int) - t2)) with hd
  by_cases h : d < 0
  · simp only [h, if_true]
    omega
  · simp only [h, if_false]
    push_neg at h
    rw [Int.toNat_of_nonneg h]
    omega

/- ================= ThreadX clock extender: tx_raw_now_ms ================= -/

/-- The two `static` locals of `tx_raw_now_ms` (telemetry.c:38-39):
`last_ticks32` is the last observed 32-bit tick reading, `high` the
accumulated epoch count (a `uint64_t` holding multiples of `2 ^ 32`). -/
structure ClockState where
  last_ticks32 : Nat
  high : Nat
  deriving DecidableEq, Repr

/-- Initial values of the static locals (zero-initialized). -/
def clockInit : ClockState := ⟨0, 0⟩

/-- Embedding of `tx_raw_now_ms` (telemetry.c:35-49).  `rate` is the build
constant `TX_TIMER_TICKS_PER_SECOND`, `cur32` the 32-bit reading returned by
`tx_time_get()`.  All `uint64_t` arithmetic wraps mod `2 ^ 64`. -/
def tx_raw_now_ms (rate : Nat) (s : ClockState) (cur32 : Nat) : ClockState × Nat :=
  let high := if cur32 < s.last_ticks32 then (s.high + 2 ^ 32) % 2 ^ 64 else s.high
  let ticks64 := high ||| cur32
  (⟨cur32, high⟩, ticks64 * 1000 % 2 ^ 64 / rate)

/-- Feed a sequence of hardware tick readings through `tx_raw_now_ms`,
collecting the returned millisecond values. -/
def runClock (rate : Nat) (s : ClockState) : List Nat → List Nat
  | [] => []
  | c :: cs =>
    let p := tx_raw_now_ms rate s c
    p.2 :: runClock rate p.1 cs

/-- The millisecond value that was returned by the call that stored state
`s` (used to relate consecutive outputs). -/
def msOf (rate : Nat) (s : ClockState) : Nat :=
  (s.high ||| s.last_ticks32) * 1000 % 2 ^ 64 / rate

theorem tx_raw_now_ms_msOf (rate : Nat) (s : ClockState) (c : Nat) :
    (tx_raw_now_ms rate s c).2 = msOf rate (tx_raw_now_ms rate s c).1 := rfl

/-- One step of the clock, from a reachable state, never goes backwards and
keeps the state shape: `high` stays a multiple of `2 ^ 32` that grows by at
most one epoch. -/
theorem tx_raw_now_ms_step (rate w last c : Nat) (hlast : last < 2 ^ 32)
    (hc : c < 2 ^ 32) (hw : (w + 2) * 2 ^ 32 * 1000 ≤ 2 ^ 64) :
    msOf rate ⟨last, w * 2 ^ 32⟩ ≤ (tx_raw_now_ms rate ⟨last, w * 2 ^ 32⟩ c).2 ∧
    ∃ w' ≤ w + 1, (tx_raw_now_ms rate ⟨last, w * 2 ^ 32⟩ c).1 = ⟨c, w' * 2 ^ 32⟩ := by
  have hor : ∀ (a b : Nat), b < 2 ^ 32 → (a * 2 ^ 32) ||| b = a * 2 ^ 32 + b := by
    intro a b hb
    rw [Nat.mul_comm a (2 ^ 32)]
    exact (Nat.mul_add_lt_is_or hb a).symm
  unfold tx_raw_now_ms msOf
  by_cases hwrap : c < last
  · simp only [hwrap, if_true]
    have hhigh : (w * 2 ^ 32 + 2 ^ 32) % 2 ^ 64 = (w + 1) * 2 ^ 32 := by
      have : (w + 1) * 2 ^ 32 < 2 ^ 64 := by nlinarith
      rw [Nat.mod_eq_of_lt (by omega)]
      ring
    rw [hhigh]
    constructor
    · rw [hor w last hlast, hor (w + 1) c hc]
      have hold : (w * 2 ^ 32 + last) * 1000 < 2 ^ 64 := by nlinarith
      have hnew : ((w + 1) * 2 ^ 32 + c) * 1000 < 2 ^ 64 := by nlinarith
      rw [Nat.mod_eq_of_lt hold, Nat.mod_eq_of_lt hnew]
      apply Nat.div_le_div_right
      apply Nat.mul_le_mul_right
      nlinarith
    · exact ⟨w + 1, le_refl _, rfl⟩
  · simp only [hwrap, if_false]
    constructor
    · rw [hor w last hlast, hor w c hc]
      have hold : (w * 2 ^ 32 + last) * 1000 < 2 ^ 64 := by nlinarith
      have hnew : (w * 2 ^ 32 + c) * 1000 < 2 ^ 64 := by nlinarith
      rw [Nat.mod_eq_of_lt hold, Nat.mod_eq_of_lt hnew]
      apply Nat.div_le_div_right
      apply Nat.mul_le_mul_right
      omega
    · exact ⟨w, by omega, rfl⟩

/-- Outputs of a run from any reachable state, prefixed with the value that
state last returned, form a non-decreasing chain. -/
theorem runClock_chain (rate : Nat) (rs : List Nat) : ∀ (w last : Nat),
    last < 2 ^ 32 → (∀ r ∈ rs, r < 2 ^ 32) →
    (w + rs.length + 1) * 2 ^ 32 * 1000 ≤ 2 ^ 64 →
    List.Chain' (· ≤ ·)
      (msOf rate ⟨last, w * 2 ^ 32⟩ :: runClock rate ⟨last, w * 2 ^ 32⟩ rs) := by
  induction rs with
  | nil => intro w last _ _ _; simp [runClock]
  | cons c cs ih =>
    intro w last hlast hmem hbound
    have hc : c < 2 ^ 32 := hmem c (List.mem_cons_self c cs)
    have hlen : (w + 2) * 2 ^ 32 * 1000 ≤ 2 ^ 64 := by
      have h1 : w + 2 ≤ w + (c :: cs).length + 1 := by
        simp only [List.length_cons]; omega
      calc (w + 2) * 2 ^ 32 * 1000
          ≤ (w + (c :: cs).length + 1) * 2 ^ 32 * 1000 :=
            Nat.mul_le_mul_right _ (Nat.mul_le_mul_right _ h1)
        _ ≤ 2 ^ 64 := hbound
    obtain ⟨hmono, w', hw', hstate⟩ := tx_raw_now_ms_step rate w last c hlast hc hlen
    have hbound' : (w' + cs.length + 1) * 2 ^ 32 * 1000 ≤ 2 ^ 64 := by
      have h1 : w' + cs.length + 1 ≤ w + (c :: cs).length + 1 := by
        simp only [List.length_cons]; omega
      calc (w' + cs.length + 1) * 2 ^ 32 * 1000
          ≤ (w + (c :: cs).length + 1) * 2 ^ 32 * 1000 :=
            Nat.mul_le_mul_right _ (Nat.mul_le_mul_right _ h1)
        _ ≤ 2 ^ 64 := hbound
    have hchain := ih w' c hc (fun r hr => hmem r (List.mem_cons_of_mem c hr)) hbound'
    show List.Chain' (· ≤ ·) (msOf rate ⟨last, w * 2 ^ 32⟩ ::
      (tx_raw_now_ms rate ⟨last, w * 2 ^ 32⟩ c).2 ::
      runClock rate (tx_raw_now_ms rate ⟨last, w * 2 ^ 32⟩ c).1 cs)
    have hm2 : msOf rate ⟨last, w * 2 ^ 32⟩ ≤ msOf rate ⟨c, w' * 2 ^ 32⟩ := by
      rw [← hstate, ← tx_raw_now_ms_msOf]; exact hmono
    rw [tx_raw_now_ms_msOf, hstate]
    exact List.Chain'.cons hm2 hchain

/-- C1: for every sequence of 32-bit hardware tick readings (bounded in length
so that the accumulated `uint64_t` tick count times 1000 cannot wrap), the
values returned by successive calls to `tx_raw_now_ms` starting from the
zero-initialized static state are non-decreasing, including across a
wraparound from a near-maximum reading back to a small one. -/
theorem tx_raw_now_ms_monotone (rate : Nat) (rs : List Nat)
    (hmem : ∀ r ∈ rs, r < 2 ^ 32) (hlen : rs.length ≤ 4000000) :
    List.Chain' (· ≤ ·) (runClock rate clockInit rs) := by
  have h := runClock_chain rate rs 0 0 (by norm_num) hmem
    (by nlinarith [hlen])
  have h0 : clockInit = (⟨0, 0 * 2 ^ 32⟩ : ClockState) := rfl
  rw [h0]
  exact (h).tail

/-- C1 witness: a concrete reading sequence that wraps from near `2 ^ 32`
back to a small value still yields non-decreasing outputs. -/
theorem tx_raw_now_ms_monotone_witness :
    (∀ r ∈ [100, 2 ^ 32 - 5, 3, 7], r < 2 ^ 32) ∧
    ([100, 2 ^ 32 - 5, 3, 7] : List Nat).length ≤ 4000000 ∧
    List.Chain' (· ≤ ·) (runClock 100 clockInit [100, 2 ^ 32 - 5, 3, 7]) :=
  ⟨by decide, by decide,
    tx_raw_now_ms_monotone 100 [100, 2 ^ 32 - 5, 3, 7] (by decide) (by decide)⟩

/- ================= offset application: client_apply_offset_ms ================= -/

/-- Build default `NET_TIMESYNC_MAX_STEP_MS` (telemetry.c:127-129). -/
def NET_TIMESYNC_MAX_STEP_MS : Int := 30000

/-- Build default `NET_TIMESYNC_SMOOTH_DIV` (telemetry.c:131-133). -/
def NET_TIMESYNC_SMOOTH_DIV : Int := 4

/-- The smoothing step computed inside `client_apply_offset_ms`
(telemetry.c:141-145): `offset_ms / SMOOTH_DIV` with C truncating division,
replaced by a unit step in the candidate's sign when the division truncates
to zero on a non-zero candidate. -/
def client_step (offset_ms : Int) : Int :=
  if Int.tdiv offset_ms NET_TIMESYNC_SMOOTH_DIV = 0 then
    if offset_ms > 0 then 1
    else if offset_ms < 0 then -1
    else Int.tdiv offset_ms NET_TIMESYNC_SMOOTH_DIV
  else Int.tdiv offset_ms NET_TIMESYNC_SMOOTH_DIV

/-- Embedding of `client_apply_offset_ms` (telemetry.c:135-148), returning the
new value of `g_master_offset_ms`.  The `+=` on the int64 global wraps. -/
def client_apply_offset_ms (offset_ms g_master_offset_ms : Int) : Int :=
  if offset_ms > NET_TIMESYNC_MAX_STEP_MS ∨ offset_ms < -NET_TIMESYNC_MAX_STEP_MS then
    g_master_offset_ms
  else
    wrap64 (g_master_offset_ms + client_step offset_ms)

theorem tdiv_four (c : Int) : Int.tdiv c 4 = if 0 ≤ c then c / 4 else -(-c / 4) := by
  by_cases h : 0 ≤ c
  · simp only [h, if_true]
    exact Int.tdiv_eq_ediv h (by norm_num)
  · simp only [h, if_false]
    conv_lhs => rw [← Int.neg_neg c]
    rw [Int.neg_tdiv, Int.tdiv_eq_ediv (by omega) (by norm_num)]

theorem client_step_pos {c : Int} (h1 : 0 < c) (h2 : c ≤ 30000) :
    1 ≤ client_step c ∧ client_step c ≤ c := by
  unfold client_step NET_TIMESYNC_SMOOTH_DIV
  rw [tdiv_four]
  split_ifs <;> omega

theorem client_step_neg {c : Int} (h1 : c < 0) (h2 : -30000 ≤ c) :
    c ≤ client_step c ∧ client_step c ≤ -1 := by
  unfold client_step NET_TIMESYNC_SMOOTH_DIV
  rw [tdiv_four]
  split_ifs <;> omega

/-- C3: a candidate offset of magnitude above `MAX_STEP_MS = 30000` leaves
`g_master_offset_ms` unchanged; a candidate with `0 < |c| ≤ 30000` adds a step
of magnitude between 1 and `|c|` carrying the candidate's sign (the addition
itself is int64, so away from the int64 boundary the new value is exactly
`g + step`). -/
theorem client_apply_offset_ms_bounded (c g : Int) :
    (30000 < |c| → client_apply_offset_ms c g = g) ∧
    (0 < |c| → |c| ≤ 30000 →
      client_apply_offset_ms c g = wrap64 (g + client_step c) ∧
      1 ≤ |client_step c| ∧ |client_step c| ≤ |c| ∧
      (client_step c).sign = c.sign) ∧
    (0 < |c| → |c| ≤ 30000 → |g| ≤ 2 ^ 63 - 30001 →
      client_apply_offset_ms c g = g + client_step c) := by
  have hstep : 0 < |c| → |c| ≤ 30000 →
      1 ≤ |client_step c| ∧ |client_step c| ≤ |c| ∧
      (client_step c).sign = c.sign := by
    intro h0 h30
    have hc0 : c ≠ 0 := by
      intro h; rw [h] at h0; simp at h0
    rcases lt_or_gt_of_ne hc0 with hneg | hpos
    · have hb := abs_le.mp h30
      obtain ⟨hs1, hs2⟩ := client_step_neg hneg hb.1
      have habs : |client_step c| = -(client_step c) := abs_of_neg (by omega)
      have habs2 : |c| = -c := abs_of_neg hneg
      refine ⟨by omega, by omega, ?_⟩
      rw [Int.sign_eq_neg_one_iff_neg.mpr (by omega),
        Int.sign_eq_neg_one_iff_neg.mpr hneg]
    · have hb := abs_le.mp h30
      obtain ⟨hs1, hs2⟩ := client_step_pos hpos hb.2
      have habs : |client_step c| = client_step c := abs_of_pos (by omega)
      have habs2 : |c| = c := abs_of_pos hpos
      refine ⟨by omega, by omega, ?_⟩
      rw [Int.sign_eq_one_iff_pos.mpr (by omega),
        Int.sign_eq_one_iff_pos.mpr hpos]
  refine ⟨?_, ?_, ?_⟩
  · intro h
    have := lt_abs.mp h
    unfold client_apply_offset_ms NET_TIMESYNC_MAX_STEP_MS
    rw [if_pos (by omega)]
  · intro h0 h30
    have hb := abs_le.mp h30
    refine ⟨?_, hstep h0 h30⟩
    unfold client_apply_offset_ms NET_TIMESYNC_MAX_STEP_MS
    rw [if_neg (by omega)]
  · intro h0 h30 hg
    obtain ⟨hs1, hs2, _⟩ := hstep h0 h30
    have hb := abs_le.mp h30
    have hsb := abs_le.mp (le_trans hs2 h30)
    have hgb := abs_le.mp hg
    unfold client_apply_offset_ms NET_TIMESYNC_MAX_STEP_MS
    rw [if_neg (by omega)]
    exact wrap64_eq_self (by omega) (by omega)

/-- C3 witness: candidate 40000 is discarded; candidate 2 (division truncates
to zero) applies the unit step `+1`. -/
theorem client_apply_offset_ms_bounded_witness :
    client_apply_offset_ms 40000 7 = 7 ∧ client_apply_offset_ms 2 7 = 7 + client_step 2 := by
  refine ⟨(client_apply_offset_ms_bounded 40000 7).1 (by decide), ?_⟩
  exact (client_apply_offset_ms_bounded 2 7).2.2 (by decide) (by decide) (by decide)

/- ================= repeated offset application (convergence) ================= -/

/-- Value of `g_master_offset_ms` after `k` calls of `client_apply_offset_ms`
with the constant candidate `c`, starting from the initial value 0. -/
def applyIter (c : Int) : Nat → Int
  | 0 => 0
  | k + 1 => client_apply_offset_ms c (applyIter c k)

theorem client_apply_accept {c : Int} (g : Int) (h1 : -30000 ≤ c) (h2 : c ≤ 30000) :
    client_apply_offset_ms c g = wrap64 (g + client_step c) := by
  unfold client_apply_offset_ms NET_TIMESYNC_MAX_STEP_MS
  rw [if_neg (by omega)]

theorem client_step_abs {c : Int} (hc0 : c ≠ 0) (h1 : -30000 ≤ c) (h2 : c ≤ 30000) :
    1 ≤ |client_step c| ∧ |client_step c| ≤ |c| ∧ (client_step c).sign = c.sign := by
  rcases lt_or_gt_of_ne hc0 with hneg | hpos
  · obtain ⟨hs1, hs2⟩ := client_step_neg hneg h1
    have habs : |client_step c| = -(client_step c) := abs_of_neg (by omega)
    have habs2 : |c| = -c := abs_of_neg hneg
    refine ⟨by omega, by omega, ?_⟩
    rw [Int.sign_eq_neg_one_iff_neg.mpr (by omega),
      Int.sign_eq_neg_one_iff_neg.mpr hneg]
  · obtain ⟨hs1, hs2⟩ := client_step_pos hpos h2
    have habs : |client_step c| = client_step c := abs_of_pos (by omega)
    have habs2 : |c| = c := abs_of_pos hpos
    refine ⟨by omega, by omega, ?_⟩
    rw [Int.sign_eq_one_iff_pos.mpr (by omega),
      Int.sign_eq_one_iff_pos.mpr hpos]

/-- While the cumulative movement stays within `|c|`, the iteration follows
the exact integer-division schedule `k * client_step c`. -/
theorem applyIter_schedule (c : Int) (h1 : -30000 ≤ c) (h2 : c ≤ 30000) :
    ∀ k : Nat, k * (client_step c).natAbs ≤ c.natAbs →
      applyIter c k = (k : Int) * client_step c := by
  intro k
  induction k with
  | zero => intro _; simp [applyIter]
  | succ k ih =>
    intro hk
    have hk' : k * (client_step c).natAbs ≤ c.natAbs :=
      le_trans (Nat.mul_le_mul_right _ (Nat.le_succ k)) hk
    show client_apply_offset_ms c (applyIter c k) = _
    rw [ih hk', client_apply_accept _ h1 h2]
    have he : (k : Int) * client_step c + client_step c
        = (((k + 1 : Nat)) : Int) * client_step c := by push_cast; ring
    rw [he]
    have hcn : c.natAbs ≤ 30000 := by
      have h30 : |c| ≤ 30000 := abs_le.mpr ⟨h1, h2⟩
      rw [Int.abs_eq_natAbs] at h30
      exact_mod_cast h30
    have habs : |(((k + 1 : Nat)) : Int) * client_step c|
        = (((k + 1) * (client_step c).natAbs : Nat) : Int) := by
      rw [abs_mul, Nat.abs_cast, Int.abs_eq_natAbs]
      push_cast; ring
    have hxb : |(((k + 1 : Nat)) : Int) * client_step c| ≤ 30000 := by
      rw [habs]
      exact_mod_cast le_trans hk hcn
    have hb := abs_le.mp hxb
    exact wrap64_eq_self (by omega) (by omega)

/-- C4 counterexample: with the constant candidate `C = 1000`
(`|C| ≤ MAX_STEP_MS`), the offset reaches `C` exactly at the fourth
application, but the fifth application steps past `C` to 1250 — repeated
application of a constant candidate does not converge to `C` without
overshoot. -/
theorem applyIter_overshoots :
    applyIter 1000 4 = 1000 ∧ applyIter 1000 5 = 1250 := by
  constructor <;> decide

/-- C4 (amended): for a constant candidate `c` with `0 < |c| ≤ 30000`, up to
`N = |c| / |step|` applications the offset follows the exact schedule
`k * step` (`step = client_step c`, `1 ≤ |step|`, same sign as `c`), moving
monotonically in magnitude, never exceeding `|c|` (no overshoot up to `N`),
and after `N` applications it is within one step of `c`; applications beyond
`N` continue adding the same step and overshoot (see `applyIter_overshoots`). -/
theorem applyIter_no_overshoot (c : Int) (h0 : 0 < |c|) (h30 : |c| ≤ 30000) :
    1 ≤ |client_step c| ∧ (client_step c).sign = c.sign ∧
    (∀ k, k ≤ c.natAbs / (client_step c).natAbs →
      applyIter c k = (k : Int) * client_step c) ∧
    (∀ k, k ≤ c.natAbs / (client_step c).natAbs → |applyIter c k| ≤ |c|) ∧
    (∀ j k, j ≤ k → k ≤ c.natAbs / (client_step c).natAbs →
      |applyIter c j| ≤ |applyIter c k|) ∧
    |c - applyIter c (c.natAbs / (client_step c).natAbs)| < |client_step c| := by
  have hc0 : c ≠ 0 := by
    intro h; rw [h] at h0; simp at h0
  have hb := abs_le.mp h30
  obtain ⟨habs1, habs2, hsign⟩ := client_step_abs hc0 hb.1 hb.2
  have hs_abs : |client_step c| = ((client_step c).natAbs : Int) := Int.abs_eq_natAbs _
  have hc_abs : |c| = (c.natAbs : Int) := Int.abs_eq_natAbs _
  have hsn1 : 1 ≤ (client_step c).natAbs := by
    rw [hs_abs] at habs1; exact_mod_cast habs1
  have hsched : ∀ k, k ≤ c.natAbs / (client_step c).natAbs →
      applyIter c k = (k : Int) * client_step c := by
    intro k hk
    apply applyIter_schedule c hb.1 hb.2
    calc k * (client_step c).natAbs
        ≤ (c.natAbs / (client_step c).natAbs) * (client_step c).natAbs :=
          Nat.mul_le_mul_right _ hk
      _ ≤ c.natAbs := Nat.div_mul_le_self _ _
  have hiter_abs : ∀ k, k ≤ c.natAbs / (client_step c).natAbs →
      |applyIter c k| = ((k * (client_step c).natAbs : Nat) : Int) := by
    intro k hk
    rw [hsched k hk, abs_mul, Nat.abs_cast, hs_abs]
    push_cast; ring
  refine ⟨habs1, hsign, hsched, ?_, ?_, ?_⟩
  · intro k hk
    rw [hiter_abs k hk, hc_abs]
    have h1 : k * (client_step c).natAbs ≤ c.natAbs :=
      le_trans (Nat.mul_le_mul_right _ hk) (Nat.div_mul_le_self _ _)
    exact_mod_cast h1
  · intro j k hjk hk
    rw [hiter_abs j (le_trans hjk hk), hiter_abs k hk]
    exact_mod_cast Nat.mul_le_mul_right _ hjk
  · rw [hsched _ (le_refl _), hs_abs]
    set n := c.natAbs with hn_def
    set m := (client_step c).natAbs with hm_def
    have hpr : n / m * m + n % m = n := by
      rw [Nat.mul_comm]; exact Nat.div_add_mod _ _
    have hr : n % m < m := Nat.mod_lt _ (by omega)
    have hcast : ∀ p r : Nat, p + r = n → (n : Int) - (p : Int) = (r : Int) := by
      intro p r hprr; omega
    rcases lt_or_gt_of_ne hc0 with hneg | hpos
    · have hsneg : client_step c < 0 := by
        apply Int.sign_eq_neg_one_iff_neg.mp
        rw [hsign]
        exact Int.sign_eq_neg_one_iff_neg.mpr hneg
      have hs_eq : client_step c = -(m : Int) := by
        have h1 : |client_step c| = -(client_step c) := abs_of_neg hsneg
        rw [h1] at hs_abs; linarith
      have hc_eq : c = -(n : Int) := by
        have h1 : |c| = -c := abs_of_neg hneg
        rw [h1] at hc_abs; linarith
      rw [hs_eq, hc_eq]
      have key : -(n : Int) - ((n / m : Nat) : Int) * -(m : Int)
          = -((n : Int) - ((n / m * m : Nat) : Int)) := by push_cast; ring
      rw [key, hcast _ _ hpr, abs_neg, Nat.abs_cast]
      exact_mod_cast hr
    · have hspos : 0 < client_step c := by
        apply Int.sign_eq_one_iff_pos.mp
        rw [hsign]
        exact Int.sign_eq_one_iff_pos.mpr hpos
      have hs_eq : client_step c = (m : Int) := by
        have h1 : |client_step c| = client_step c := abs_of_pos hspos
        rw [h1] at hs_abs; linarith
      have hc_eq : c = (n : Int) := by
        have h1 : |c| = c := abs_of_pos hpos
        rw [h1] at hc_abs; linarith
      rw [hs_eq, hc_eq]
      have key : (n : Int) - ((n / m : Nat) : Int) * (m : Int)
          = (n : Int) - ((n / m * m : Nat) : Int) := by push_cast; ring
      rw [key, hcast _ _ hpr, Nat.abs_cast]
      exact_mod_cast hr

/-- C4 witness: at `c = 1000` the amended theorem instantiates, and after
`N = 1000 / 250 = 4` applications the offset is within one step of 1000. -/
theorem applyIter_no_overshoot_witness :
    |(1000 : Int) - applyIter 1000 ((1000 : Int).natAbs / (client_step 1000).natAbs)|
      < |client_step 1000| :=
  (applyIter_no_overshoot 1000 (by decide) (by decide)).2.2.2.2.2

/- ================= packets and the time-sync endpoint ================= -/

/-- Result codes used by the facade (from sedsprintf.h usage in
telemetry.c): `SEDS_OK`, `SEDS_ERR`, `SEDS_BAD_ARG`, `SEDS_IO`. -/
inductive SedsResult where
  | ok
  | err
  | badArg
  | ioErr
  deriving DecidableEq, Repr

/-- The message type tags compared against in `on_timesync`
(`SEDS_DT_TIME_SYNC_RESPONSE` / `_REQUEST` / `_ANNOUNCE`); all other data
types are collapsed into `other`. -/
inductive SedsDataType where
  | time_sync_response
  | time_sync_request
  | time_sync_announce
  | other (tag : Nat)
  deriving DecidableEq, Repr

/-- A `SedsPacketView`: the type tag and the payload buffer (a byte list;
`none` models a NULL payload pointer, `payload_len` is the list length). -/
structure SedsPacketView where
  ty : SedsDataType
  payload : Option (List Nat)
  deriving DecidableEq, Repr

/-- The time-sync globals of telemetry.c:66-69. -/
structure TimeSyncState where
  g_master_offset_ms : Int
  g_last_delay_ms : Nat
  g_unix_base_ms : Int
  g_unix_valid : Bool
  deriving DecidableEq, Repr

/-- Read a little-endian 64-bit field at byte offset `off`, as the
`memcpy(&x, payload + off, 8)` calls in `on_timesync` do. -/
def readLE64 (bytes : List Nat) (off : Nat) : Nat :=
  bytes.getD off 0 + bytes.getD (off + 1) 0 * 2 ^ 8 +
  bytes.getD (off + 2) 0 * 2 ^ 16 + bytes.getD (off + 3) 0 * 2 ^ 24 +
  bytes.getD (off + 4) 0 * 2 ^ 32 + bytes.getD (off + 5) 0 * 2 ^ 40 +
  bytes.getD (off + 6) 0 * 2 ^ 48 + bytes.getD (off + 7) 0 * 2 ^ 56

/-- Embedding of `telemetry_now_ms` (telemetry.c:85-89): raw clock value plus
the master offset in int64, clamped at zero, returned as uint64.  `raw` is
the value read from `tx_raw_now_ms`. -/
def telemetry_now_ms (raw : Nat) (s : TimeSyncState) : Nat :=
  let t := wrap64 (toInt64 raw + s.g_master_offset_ms)
  if t < 0 then 0 else t.toNat

/-- Embedding of the `on_timesync` endpoint handler (telemetry.c:177-250).
`master` is the build flag `TELEMETRY_TIME_MASTER`; `raw1` and `raw2` are the
values returned by the (up to two) `tx_raw_now_ms` reads the handler makes;
`sendRes` is the result the router returns for `seds_router_log_ts`.  The
returned triple is the new global state, the handler's result code, and the
RESPONSE emitted by the master branch (timestamp and payload words), if any. -/
def on_timesync (master : Bool) (raw1 raw2 : Nat) (sendRes : SedsResult)
    (pkt? : Option SedsPacketView) (s : TimeSyncState) :
    TimeSyncState × SedsResult × Option (Nat × List Nat) :=
  match pkt? with
  | none => (s, .err, none)
  | some pkt =>
    match pkt.payload with
    | none => (s, .err, none)
    | some payload =>
      if pkt.ty = .time_sync_response ∧ payload.length ≥ 32 then
        let t1 := readLE64 payload 8
        let t2 := readLE64 payload 16
        let t3 := readLE64 payload 24
        let t4 := raw1
        let od := compute_offset_delay t1 t2 t3 t4
        let s1 := if master then s
          else { s with g_master_offset_ms :=
                  client_apply_offset_ms od.1 s.g_master_offset_ms }
        ({ s1 with g_last_delay_ms := od.2 }, .ok, none)
      else if pkt.ty = .time_sync_request ∧ payload.length ≥ 16 then
        if master then
          let seq := readLE64 payload 0
          let t1 := readLE64 payload 8
          let t2 := raw1
          let t3 := raw2
          (s, sendRes, some (t3, [seq, t1, t2, t3]))
        else
          (s, .ok, none)
      else if pkt.ty = .time_sync_announce ∧ payload.length ≥ 16 then
        if master then
          (s, .ok, none)
        else
          let unix_ms := readLE64 payload 8
          let half_delay := s.g_last_delay_ms / 2
          let now := toInt64 (telemetry_now_ms raw1 s)
          ({ s with
              g_unix_base_ms := wrap64 (toInt64 ((unix_ms + half_delay) % 2 ^ 64) - now),
              g_unix_valid := true }, .ok, none)
      else
        (s, .ok, none)

/-- C5: a TIME_SYNC_RESPONSE whose payload is 31 bytes (one short of the
32-byte minimum) is silently dropped on either role: the state (in
particular `g_master_offset_ms` and `g_last_delay_ms`) is unchanged, the
result is `SEDS_OK`, and nothing is sent. -/
theorem on_timesync_short_response (master : Bool) (raw1 raw2 : Nat)
    (sendRes : SedsResult) (payload : List Nat) (s : TimeSyncState)
    (hlen : payload.length = 31) :
    on_timesync master raw1 raw2 sendRes
      (some ⟨.time_sync_response, some payload⟩) s = (s, .ok, none) := by
  unfold on_timesync
  simp [hlen]

/-- C5 witness: a concrete 31-byte RESPONSE payload against a concrete state
is dropped with no state change. -/
theorem on_timesync_short_response_witness :
    (List.replicate 31 7).length = 31 ∧
    on_timesync false 1025 0 .ok
      (some ⟨.time_sync_response, some (List.replicate 31 7)⟩)
      ⟨5, 9, 11, false⟩ = (⟨5, 9, 11, false⟩, .ok, none) :=
  ⟨by decide,
    on_timesync_short_response false 1025 0 .ok (List.replicate 31 7)
      ⟨5, 9, 11, false⟩ (by decide)⟩

/-- Little-endian 8-byte encoding of a 64-bit word (for concrete packets). -/
def le64 (n : Nat) : List Nat :=
  [n % 256, n / 2 ^ 8 % 256, n / 2 ^ 16 % 256, n / 2 ^ 24 % 256,
   n / 2 ^ 32 % 256, n / 2 ^ 40 % 256, n / 2 ^ 48 % 256, n / 2 ^ 56 % 256]

/-- C7 counterexample: on a master node, a well-formed TIME_SYNC_RESPONSE
(seq = 1, t1 = 1000, t2 = 1010, t3 = 1012, local read t4 = 1025) is NOT a
pure no-op: `telemetry_last_delay_ms_set` sits outside the
`#if !TELEMETRY_TIME_MASTER` guard (telemetry.c:195-198), so
`g_last_delay_ms` changes from 0 to the computed delay 23. -/
theorem on_timesync_master_response_changes_state :
    (on_timesync true 1025 0 .ok
      (some ⟨.time_sync_response, some (le64 1 ++ le64 1000 ++ le64 1010 ++ le64 1012)⟩)
      ⟨0, 0, 0, false⟩).1.g_last_delay_ms = 23 ∧
    (on_timesync true 1025 0 .ok
      (some ⟨.time_sync_response, some (le64 1 ++ le64 1000 ++ le64 1010 ++ le64 1012)⟩)
      ⟨0, 0, 0, false⟩).1 ≠ (⟨0, 0, 0, false⟩ : TimeSyncState) := by
  constructor <;> decide

/-- C7 (amended): on a master node, a well-formed TIME_SYNC_RESPONSE leaves
`g_master_offset_ms`, the unix base and the validity flag unchanged, sends
nothing and returns `SEDS_OK`, but it does update `g_last_delay_ms` with the
freshly computed delay (the delay store is unconditional in the source). -/
theorem on_timesync_master_response (raw1 raw2 : Nat) (sendRes : SedsResult)
    (payload : List Nat) (s : TimeSyncState) (hlen : 32 ≤ payload.length) :
    on_timesync true raw1 raw2 sendRes
      (some ⟨.time_sync_response, some payload⟩) s
      = ({ s with g_last_delay_ms :=
            (compute_offset_delay (readLE64 payload 8) (readLE64 payload 16)
              (readLE64 payload 24) raw1).2 }, .ok, none) := by
  unfold on_timesync
  simp [hlen]

/-- C7 amended-theorem witness at the concrete packet of the counterexample. -/
theorem on_timesync_master_response_witness :
    on_timesync true 1025 0 .ok
      (some ⟨.time_sync_response, some (le64 1 ++ le64 1000 ++ le64 1010 ++ le64 1012)⟩)
      ⟨0, 0, 0, false⟩
      = (⟨0, 23, 0, false⟩, .ok, none) := by
  have h := on_timesync_master_response 1025 0 .ok
    (le64 1 ++ le64 1000 ++ le64 1010 ++ le64 1012) ⟨0, 0, 0, false⟩ (by decide)
  rw [h]
  decide

/- ================= router state and the dispatch facade ================= -/

/-- `RouterState` (telemetry.h:13-17): the router pointer (`true` = non-NULL),
the creation flag, and the adjusted-time value recorded at creation. -/
structure RouterSt where
  r : Bool
  created : Bool
  start_time : Nat
  deriving DecidableEq, Repr

/-- All process-wide mutable state touched by the facade: the time-sync
globals, `g_router`, `g_can_rx_subscribed`, `g_can_side_id` and
`g_timesync_seq`. -/
structure CoreState where
  sync : TimeSyncState
  router : RouterSt
  g_can_rx_subscribed : Bool
  g_can_side_id : Int
  g_timesync_seq : Nat
  deriving DecidableEq, Repr

/-- The zero-initialized / explicitly initialized globals of telemetry.c
(`g_router = {NULL, 0, 0}`, `g_can_side_id = -1`, `g_timesync_seq = 1`). -/
def coreInit : CoreState := ⟨⟨0, 0, 0, false⟩, ⟨false, false, 0⟩, false, -1, 1⟩

/-- Return values of the external collaborators during one facade call:
whether `can_bus_subscribe_rx` returns `HAL_OK`, whether `seds_router_new`
returns a non-NULL router, the side id returned by
`seds_router_add_side_serialized`, the result of the router enqueue calls,
and the hardware clock reading consumed by the call. -/
structure RouterEnv where
  subscribe_ok : Bool
  new_ok : Bool
  add_side_id : Int
  send_res : SedsResult
  raw1 : Nat
  deriving DecidableEq, Repr

/-- Embedding of `init_telemetry_router` (telemetry.c:356-421), in the
`TELEMETRY_ENABLED` build. -/
def init_telemetry_router (master : Bool) (env : RouterEnv) (st : CoreState) :
    CoreState × SedsResult :=
  if st.router.created && st.router.r then (st, .ok)
  else
    let st1 := if !st.g_can_rx_subscribed && env.subscribe_ok then
        { st with g_can_rx_subscribed := true } else st
    if !env.new_ok then
      ({ st1 with
          router := ⟨false, false, st1.router.start_time⟩
          g_can_side_id := -1 }, .err)
    else
      let st2 := { st1 with
        g_can_side_id := if env.add_side_id < 0 then -1 else env.add_side_id }
      let st3 := { st2 with router := ⟨true, true, telemetry_now_ms env.raw1 st2.sync⟩ }
      let st4 := if master then
          { st3 with sync := { st3.sync with g_master_offset_ms := 0 } } else st3
      (st4, .ok)

/-- `SedsElemKind` values produced by `guess_kind_from_elem_size`. -/
inductive SedsElemKind where
  | floatKind
  | unsignedKind
  deriving DecidableEq, Repr

/-- Embedding of `guess_kind_from_elem_size` (telemetry.c:424-427). -/
def guess_kind_from_elem_size (elem_size : Nat) : SedsElemKind :=
  if elem_size = 4 ∨ elem_size = 8 then .floatKind else .unsignedKind

/-- One `seds_router_log_typed_ex` call observed at the router boundary. -/
structure EnqueueCall where
  element_count : Nat
  element_size : Nat
  kind : SedsElemKind
  async : Bool
  deriving DecidableEq, Repr

/-- The part of `log_telemetry_{a}synchronous` after the lazy init: argument
check, kind inference, enqueue (telemetry.c:435-440 and 454-459). -/
def log_telemetry_checked (env : RouterEnv) (async : Bool) (data_null : Bool)
    (element_count element_size : Nat) (st : CoreState) :
    CoreState × SedsResult × Option EnqueueCall :=
  if data_null || decide (element_count = 0) || decide (element_size = 0) then
    (st, .badArg, none)
  else
    (st, env.send_res,
      some ⟨element_count, element_size, guess_kind_from_elem_size element_size, async⟩)

/-- Shared embedding of `log_telemetry_synchronous` (telemetry.c:429-446) and
`log_telemetry_asynchronous` (telemetry.c:448-465), which differ only in the
final async flag passed to `seds_router_log_typed_ex`.  `data_null` models a
NULL `data` pointer. -/
def log_telemetry_impl (master : Bool) (env : RouterEnv) (async : Bool)
    (data_null : Bool) (element_count element_size : Nat) (st : CoreState) :
    CoreState × SedsResult × Option EnqueueCall :=
  if !st.router.r then
    let p := init_telemetry_router master env st
    if p.2 ≠ .ok then (p.1, .err, none)
    else log_telemetry_checked env async data_null element_count element_size p.1
  else log_telemetry_checked env async data_null element_count element_size st

def log_telemetry_synchronous (master : Bool) (env : RouterEnv) (data_null : Bool)
    (element_count element_size : Nat) (st : CoreState) :
    CoreState × SedsResult × Option EnqueueCall :=
  log_telemetry_impl master env false data_null element_count element_size st

def log_telemetry_asynchronous (master : Bool) (env : RouterEnv) (data_null : Bool)
    (element_count element_size : Nat) (st : CoreState) :
    CoreState × SedsResult × Option EnqueueCall :=
  log_telemetry_impl master env true data_null element_count element_size st

/-- The send step of `telemetry_timesync_request` (telemetry.c:323-326):
stamp `t1`, build `[seq, t1]` with the post-incremented `g_timesync_seq`
(a wrapping `uint64_t`), enqueue with the router's result. -/
def timesync_request_send (env : RouterEnv) (st : CoreState) :
    CoreState × SedsResult × Option (Nat × List Nat) :=
  ({ st with g_timesync_seq := (st.g_timesync_seq + 1) % 2 ^ 64 },
    env.send_res, some (env.raw1, [st.g_timesync_seq, env.raw1]))

/-- Embedding of `telemetry_timesync_request` (telemetry.c:311-329),
`TELEMETRY_ENABLED` build. -/
def telemetry_timesync_request (master : Bool) (env : RouterEnv) (st : CoreState) :
    CoreState × SedsResult × Option (Nat × List Nat) :=
  if master then (st, .ok, none)
  else
    if !st.router.r then
      let p := init_telemetry_router false env st
      if p.2 ≠ .ok then (p.1, .err, none)
      else timesync_request_send env p.1
    else timesync_request_send env st

/-- Embedding of `telemetry_timesync_announce` (telemetry.c:331-353),
`TELEMETRY_ENABLED` build. -/
def telemetry_timesync_announce (master : Bool) (env : RouterEnv)
    (priority unix_ms : Nat) (st : CoreState) :
    CoreState × SedsResult × Option (Nat × List Nat) :=
  if !master then (st, .ok, none)
  else
    if !st.router.r then
      let p := init_telemetry_router true env st
      if p.2 ≠ .ok then (p.1, .err, none)
      else (p.1, env.send_res, some (env.raw1, [priority, unix_ms]))
    else (st, env.send_res, some (env.raw1, [priority, unix_ms]))

/-- Embedding of `telemetry_set_unix_time_ms` (telemetry.c:106-114): only a
master node updates the unix base and validity flag. -/
def telemetry_set_unix_time_ms (master : Bool) (raw : Nat) (unix_ms : Nat)
    (s : TimeSyncState) : TimeSyncState :=
  if master then
    { s with
        g_unix_base_ms := wrap64 (toInt64 unix_ms - toInt64 (telemetry_now_ms raw s)),
        g_unix_valid := true }
  else s

/-- C8 counterexample: from the fresh state, with router creation succeeding
but `seds_router_add_side_serialized` failing (returning −1), the facade does
NOT report failure and does NOT leave RouterState uncreated: it logs, resets
the side id, marks the router created and returns `SEDS_OK`
(telemetry.c:405-419). -/
theorem init_telemetry_router_side_failure :
    (init_telemetry_router false ⟨true, true, -1, .ok, 0⟩ coreInit).2 = .ok ∧
    (init_telemetry_router false ⟨true, true, -1, .ok, 0⟩ coreInit).1.router.created = true ∧
    (init_telemetry_router false ⟨true, true, -1, .ok, 0⟩ coreInit).1.router.r = true ∧
    (init_telemetry_router false ⟨true, true, -1, .ok, 0⟩ coreInit).1.g_can_side_id = -1 := by
  refine ⟨?_, ?_, ?_, ?_⟩ <;> decide

/-- C8 (amended): a repeated call with the router already created is a no-op
returning success; failure of `seds_router_new` (which also covers endpoint
registration, since the endpoints are passed to it) reports `SEDS_ERR` and
leaves RouterState uncreated (pointer null, flag clear) so a later call can
retry; but failure of the transport-side attach alone is only logged — the
side id is reset to −1, the router is still marked created, and the call
returns `SEDS_OK`. -/
theorem init_telemetry_router_spec (master : Bool) (env : RouterEnv) (st : CoreState) :
    (st.router.created = true → st.router.r = true →
      init_telemetry_router master env st = (st, .ok)) ∧
    (env.new_ok = false → (st.router.created = true → st.router.r = true → False) →
      (init_telemetry_router master env st).2 = .err ∧
      (init_telemetry_router master env st).1.router.created = false ∧
      (init_telemetry_router master env st).1.router.r = false) ∧
    (env.new_ok = true → (st.router.created = true → st.router.r = true → False) →
      env.add_side_id < 0 →
      (init_telemetry_router master env st).2 = .ok ∧
      (init_telemetry_router master env st).1.router.created = true ∧
      (init_telemetry_router master env st).1.router.r = true ∧
      (init_telemetry_router master env st).1.g_can_side_id = -1) := by
  refine ⟨?_, ?_, ?_⟩
  · intro h1 h2
    unfold init_telemetry_router
    rw [if_pos (by rw [h1, h2]; rfl)]
  · intro h1 h2
    have hc : (st.router.created && st.router.r) = false := by
      cases hx : st.router.created <;> cases hy : st.router.r <;> simp_all
    unfold init_telemetry_router
    simp [hc, h1]
  · intro h1 h2 h3
    have hc : (st.router.created && st.router.r) = false := by
      cases hx : st.router.created <;> cases hy : st.router.r <;> simp_all
    unfold init_telemetry_router
    cases master <;> simp [hc, h1, h3]

/-- C8 amended-theorem witness: concrete no-op on an already-created router,
concrete failed creation, and the side-attach-failure case. -/
theorem init_telemetry_router_spec_witness :
    init_telemetry_router false ⟨true, true, 3, .ok, 0⟩
      ⟨⟨0, 0, 0, false⟩, ⟨true, true, 42⟩, true, 3, 1⟩
      = (⟨⟨0, 0, 0, false⟩, ⟨true, true, 42⟩, true, 3, 1⟩, .ok) ∧
    (init_telemetry_router false ⟨true, false, -1, .ok, 0⟩ coreInit).2 = .err ∧
    (init_telemetry_router false ⟨true, false, -1, .ok, 0⟩ coreInit).1.router.created
      = false := by
  refine ⟨?_, ?_, ?_⟩
  · exact (init_telemetry_router_spec false ⟨true, true, 3, .ok, 0⟩
      ⟨⟨0, 0, 0, false⟩, ⟨true, true, 42⟩, true, 3, 1⟩).1 (by decide) (by decide)
  · exact ((init_telemetry_router_spec false ⟨true, false, -1, .ok, 0⟩ coreInit).2.1
      (by decide) (by decide)).1
  · exact ((init_telemetry_router_spec false ⟨true, false, -1, .ok, 0⟩ coreInit).2.1
      (by decide) (by decide)).2.1

/-- Result of `init_telemetry_router` as a function of the collaborator
outcomes: already-created short-circuit or router creation decide it; a
failed side attach does not. -/
theorem init_telemetry_router_result (master : Bool) (env : RouterEnv) (st : CoreState) :
    (init_telemetry_router master env st).2
      = (if (st.router.created && st.router.r) || env.new_ok then .ok else .err) := by
  unfold init_telemetry_router
  by_cases h1 : (st.router.created && st.router.r) = true
  · simp [h1]
  · have h1' : (st.router.created && st.router.r) = false := by
      cases h : (st.router.created && st.router.r) <;> simp_all
    cases h2 : env.new_ok <;> simp [h1', h2]

/-- C9 counterexample: a call with a NULL data pointer made while the router
is not yet created and lazy initialization fails returns `SEDS_ERR`, not
`SEDS_BAD_ARG` (the lazy init at telemetry.c:432-434 precedes the argument
check at telemetry.c:435); no enqueue happens. -/
theorem log_bad_arg_init_failure :
    (log_telemetry_synchronous false ⟨true, false, -1, .ok, 0⟩ true 1 4 coreInit).2.1
      = .err ∧
    (log_telemetry_synchronous false ⟨true, false, -1, .ok, 0⟩ true 1 4 coreInit).2.1
      ≠ .badArg ∧
    (log_telemetry_synchronous false ⟨true, false, -1, .ok, 0⟩ true 1 4 coreInit).2.2
      = none := by
  refine ⟨?_, ?_, ?_⟩ <;> decide

theorem log_telemetry_impl_bad (master : Bool) (env : RouterEnv)
    (async data_null : Bool) (count size : Nat) (st : CoreState)
    (hbad : data_null = true ∨ count = 0 ∨ size = 0) :
    (log_telemetry_impl master env async data_null count size st).2.2 = none ∧
    (st.router.r = true ∨ env.new_ok = true →
      (log_telemetry_impl master env async data_null count size st).2.1 = .badArg) ∧
    (st.router.r = false → env.new_ok = false →
      (log_telemetry_impl master env async data_null count size st).2.1 = .err) := by
  have hchk : ∀ s, log_telemetry_checked env async data_null count size s
      = (s, .badArg, none) := by
    intro s
    unfold log_telemetry_checked
    rcases hbad with h | h | h <;> simp [h]
  unfold log_telemetry_impl
  by_cases hr : st.router.r = true
  · simp [hr, hchk]
  · have hr' : st.router.r = false := by cases h : st.router.r <;> simp_all
    have hres := init_telemetry_router_result master env st
    by_cases hn : env.new_ok = true
    · have hok : (init_telemetry_router master env st).2 = .ok := by
        rw [hres]; simp [hn]
      simp [hr', hok, hchk, hn]
    · have hn' : env.new_ok = false := by cases h : env.new_ok <;> simp_all
      have hbb : (st.router.created && st.router.r) = false := by
        cases h : st.router.created <;> simp [hr', h]
      have herr : (init_telemetry_router master env st).2 = .err := by
        rw [hres]; simp [hbb, hn']
      simp [hr', herr, hn']

/-- C9 (amended): a logging call with a NULL data pointer, zero element
count, or zero element size never enqueues anything; it returns
`SEDS_BAD_ARG` whenever the router is already created or the lazy
initialization succeeds, but returns `SEDS_ERR` when the router is absent
and lazy initialization fails (the init check precedes the argument check). -/
theorem log_telemetry_bad_args (master : Bool) (env : RouterEnv) (data_null : Bool)
    (count size : Nat) (st : CoreState)
    (hbad : data_null = true ∨ count = 0 ∨ size = 0) :
    (log_telemetry_synchronous master env data_null count size st).2.2 = none ∧
    (log_telemetry_asynchronous master env data_null count size st).2.2 = none ∧
    (st.router.r = true ∨ env.new_ok = true →
      (log_telemetry_synchronous master env data_null count size st).2.1 = .badArg ∧
      (log_telemetry_asynchronous master env data_null count size st).2.1 = .badArg) ∧
    (st.router.r = false → env.new_ok = false →
      (log_telemetry_synchronous master env data_null count size st).2.1 = .err ∧
      (log_telemetry_asynchronous master env data_null count size st).2.1 = .err) := by
  obtain ⟨h1, h2, h3⟩ := log_telemetry_impl_bad master env false data_null count size st hbad
  obtain ⟨h4, h5, h6⟩ := log_telemetry_impl_bad master env true data_null count size st hbad
  exact ⟨h1, h4, fun h => ⟨h2 h, h5 h⟩, fun ha hb => ⟨h3 ha hb, h6 ha hb⟩⟩

/-- C9 amended-theorem witness: with the router created, a zero-size call
returns `SEDS_BAD_ARG` on the synchronous path and enqueues nothing on the
asynchronous path. -/
theorem log_telemetry_bad_args_witness :
    (log_telemetry_synchronous false ⟨true, true, 3, .ok, 0⟩ false 2 0
      ⟨⟨0, 0, 0, false⟩, ⟨true, true, 0⟩, true, 3, 1⟩).2.1 = .badArg ∧
    (log_telemetry_asynchronous false ⟨true, true, 3, .ok, 0⟩ false 2 0
      ⟨⟨0, 0, 0, false⟩, ⟨true, true, 0⟩, true, 3, 1⟩).2.2 = none := by
  have h := log_telemetry_bad_args false ⟨true, true, 3, .ok, 0⟩ false 2 0
    ⟨⟨0, 0, 0, false⟩, ⟨true, true, 0⟩, true, 3, 1⟩ (Or.inr (Or.inr rfl))
  exact ⟨(h.2.2.1 (Or.inl rfl)).1, h.2.1⟩

/-- C10: on a client node whose router is already created, every
`telemetry_timesync_request` call advances `g_timesync_seq` by exactly one
(below the uint64 wrap), for every router enqueue result — including errors:
the increment is not rolled back; the transmitted REQUEST carries the
pre-increment sequence number. -/
theorem telemetry_timesync_request_increments (env : RouterEnv) (st : CoreState)
    (hr : st.router.r = true) (hseq : st.g_timesync_seq + 1 < 2 ^ 64) :
    (telemetry_timesync_request false env st).1.g_timesync_seq
      = st.g_timesync_seq + 1 ∧
    (telemetry_timesync_request false env st).2.1 = env.send_res ∧
    (telemetry_timesync_request false env st).2.2
      = some (env.raw1, [st.g_timesync_seq, env.raw1]) := by
  unfold telemetry_timesync_request timesync_request_send
  refine ⟨?_, by simp [hr], by simp [hr]⟩
  simp [hr]
  omega

/-- C10 witness: with sequence 5 and a failing enqueue (`SEDS_ERR` from the
router), the counter still advances to 6 and the error is surfaced. -/
theorem telemetry_timesync_request_increments_witness :
    (telemetry_timesync_request false ⟨true, true, 3, .err, 77⟩
      ⟨⟨0, 0, 0, false⟩, ⟨true, true, 0⟩, true, 3, 5⟩).1.g_timesync_seq = 5 + 1 ∧
    (telemetry_timesync_request false ⟨true, true, 3, .err, 77⟩
      ⟨⟨0, 0, 0, false⟩, ⟨true, true, 0⟩, true, 3, 5⟩).2.1 = .err :=
  ⟨(telemetry_timesync_request_increments ⟨true, true, 3, .err, 77⟩
      ⟨⟨0, 0, 0, false⟩, ⟨true, true, 0⟩, true, 3, 5⟩ (by decide) (by decide)).1,
   (telemetry_timesync_request_increments ⟨true, true, 3, .err, 77⟩
      ⟨⟨0, 0, 0, false⟩, ⟨true, true, 0⟩, true, 3, 5⟩ (by decide) (by decide)).2.1⟩

/- ================= monotonicity of unix-base validity ================= -/

theorem on_timesync_valid (master : Bool) (raw1 raw2 : Nat) (res : SedsResult)
    (pkt? : Option SedsPacketView) (s : TimeSyncState)
    (hv : s.g_unix_valid = true) :
    (on_timesync master raw1 raw2 res pkt? s).1.g_unix_valid = true := by
  cases pkt? with
  | none => exact hv
  | some pkt =>
    obtain ⟨ty, payload?⟩ := pkt
    cases payload? with
    | none => exact hv
    | some payload =>
      by_cases h1 : ty = SedsDataType.time_sync_response ∧ payload.length ≥ 32
      · cases master <;> simp [on_timesync, h1, hv]
      · by_cases h2 : ty = SedsDataType.time_sync_request ∧ payload.length ≥ 16
        · cases master <;> simp [on_timesync, h1, h2, hv]
        · by_cases h3 : ty = SedsDataType.time_sync_announce ∧ payload.length ≥ 16
          · cases master <;> simp [on_timesync, h1, h2, h3, hv]
          · simp [on_timesync, h1, h2, h3, hv]

theorem init_telemetry_router_valid (master : Bool) (env : RouterEnv)
    (st : CoreState) (hv : st.sync.g_unix_valid = true) :
    (init_telemetry_router master env st).1.sync.g_unix_valid = true := by
  cases h1 : (st.router.created && st.router.r) <;> cases h2 : env.new_ok <;>
    cases h3 : (!st.g_can_rx_subscribed && env.subscribe_ok) <;> cases master <;>
    simp [init_telemetry_router, h1, h2, h3, hv]

theorem telemetry_timesync_request_valid (master : Bool) (env : RouterEnv)
    (st : CoreState) (hv : st.sync.g_unix_valid = true) :
    (telemetry_timesync_request master env st).1.sync.g_unix_valid = true := by
  unfold telemetry_timesync_request timesync_request_send
  cases master with
  | true => simpa using hv
  | false =>
    by_cases hr : st.router.r = true
    · simp [hr, hv]
    · have hr' : st.router.r = false := by cases h : st.router.r <;> simp_all
      have hiv := init_telemetry_router_valid false env st hv
      by_cases hok : (init_telemetry_router false env st).2 = .ok
      · simp [hr', hok, hiv]
      · simp [hr', hok, hiv]

theorem telemetry_timesync_announce_valid (master : Bool) (env : RouterEnv)
    (priority unix_ms : Nat) (st : CoreState) (hv : st.sync.g_unix_valid = true) :
    (telemetry_timesync_announce master env priority unix_ms st).1.sync.g_unix_valid
      = true := by
  unfold telemetry_timesync_announce
  cases master with
  | false => simpa using hv
  | true =>
    by_cases hr : st.router.r = true
    · simp [hr, hv]
    · have hr' : st.router.r = false := by cases h : st.router.r <;> simp_all
      have hiv := init_telemetry_router_valid true env st hv
      by_cases hok : (init_telemetry_router true env st).2 = .ok
      · simp [hr', hok, hiv]
      · simp [hr', hok, hiv]

theorem log_telemetry_impl_valid (master : Bool) (env : RouterEnv)
    (async data_null : Bool) (count size : Nat) (st : CoreState)
    (hv : st.sync.g_unix_valid = true) :
    (log_telemetry_impl master env async data_null count size st).1.sync.g_unix_valid
      = true := by
  unfold log_telemetry_impl log_telemetry_checked
  by_cases hr : st.router.r = true
  · split_ifs <;> simp_all
  · have hr' : st.router.r = false := by cases h : st.router.r <;> simp_all
    have hiv := init_telemetry_router_valid master env st hv
    by_cases hok : (init_telemetry_router master env st).2 = .ok
    · split_ifs <;> simp_all
    · split_ifs <;> simp_all

theorem telemetry_set_unix_time_ms_valid (master : Bool) (raw unix_ms : Nat)
    (s : TimeSyncState) (hv : s.g_unix_valid = true) :
    (telemetry_set_unix_time_ms master raw unix_ms s).g_unix_valid = true := by
  unfold telemetry_set_unix_time_ms
  cases master <;> simp [hv]

/-- Every state-mutating operation of this core, with the external inputs it
consumes. -/
inductive CoreOp where
  | timesyncMsg (raw1 raw2 : Nat) (res : SedsResult) (pkt? : Option SedsPacketView)
  | setUnixTime (raw unix_ms : Nat)
  | timesyncRequest
  | timesyncAnnounce (priority unix_ms : Nat)
  | initRouter
  | logSync (data_null : Bool) (count size : Nat)
  | logAsync (data_null : Bool) (count size : Nat)
  | applyOffset (c : Int)

/-- State transformer of one operation (role `master`, collaborator
outcomes `env`). -/
def applyOp (master : Bool) (env : RouterEnv) : CoreOp → CoreState → CoreState
  | .timesyncMsg raw1 raw2 res pkt?, st =>
      { st with sync := (on_timesync master raw1 raw2 res pkt? st.sync).1 }
  | .setUnixTime raw u, st =>
      { st with sync := telemetry_set_unix_time_ms master raw u st.sync }
  | .timesyncRequest, st => (telemetry_timesync_request master env st).1
  | .timesyncAnnounce p u, st => (telemetry_timesync_announce master env p u st).1
  | .initRouter, st => (init_telemetry_router master env st).1
  | .logSync d c sz, st => (log_telemetry_synchronous master env d c sz st).1
  | .logAsync d c sz, st => (log_telemetry_asynchronous master env d c sz st).1
  | .applyOffset c, st =>
      { st with sync := { st.sync with
          g_master_offset_ms := client_apply_offset_ms c st.sync.g_master_offset_ms } }

/-- C6: once `g_unix_valid` is true, no operation of this core — message
handling, absolute-time write, request/announce, router init, logging, or
offset application — ever resets it to false, for either role and all
collaborator outcomes. -/
theorem unix_valid_monotone (master : Bool) (env : RouterEnv) (op : CoreOp)
    (st : CoreState) (hv : st.sync.g_unix_valid = true) :
    (applyOp master env op st).sync.g_unix_valid = true := by
  cases op with
  | timesyncMsg raw1 raw2 res pkt? =>
      exact on_timesync_valid master raw1 raw2 res pkt? st.sync hv
  | setUnixTime raw u =>
      exact telemetry_set_unix_time_ms_valid master raw u st.sync hv
  | timesyncRequest => exact telemetry_timesync_request_valid master env st hv
  | timesyncAnnounce p u =>
      exact telemetry_timesync_announce_valid master env p u st hv
  | initRouter => exact init_telemetry_router_valid master env st hv
  | logSync d c sz => exact log_telemetry_impl_valid master env false d c sz st hv
  | logAsync d c sz => exact log_telemetry_impl_valid master env true d c sz st hv
  | applyOffset c => exact hv

/-- C6 witness: a concrete client ANNOUNCE-handling operation on a state with
the flag already set keeps it set. -/
theorem unix_valid_monotone_witness :
    (applyOp false ⟨true, true, 3, .ok, 0⟩
      (.timesyncMsg 500 0 .ok (some ⟨.time_sync_announce, some (le64 9 ++ le64 1700000000000)⟩))
      ⟨⟨0, 0, 77, true⟩, ⟨true, true, 0⟩, true, 3, 1⟩).sync.g_unix_valid = true :=
  unix_valid_monotone false ⟨true, true, 3, .ok, 0⟩
    (.timesyncMsg 500 0 .ok (some ⟨.time_sync_announce, some (le64 9 ++ le64 1700000000000)⟩))
    ⟨⟨0, 0, 77, true⟩, ⟨true, true, 0⟩, true, 3, 1⟩ (by decide)
